import Mathlib

/-!
Shallow embedding of the resumable analysis-progress tracker of
`src/frontend/src/views/DashboardView.vue` (the products copy; the posts copy in
`src/unnamed/part_003` is structurally identical apart from resource names and
two toast calls).

Modelling conventions:
* JavaScript numbers holding counters, targets and epoch milliseconds are `Int`
  (differences such as `currentAnalyzed - initialAnalyzedCount` can be negative).
* The single `localStorage` slot under `ANALYSIS_STATE_KEY` is
  `Option StoredValue`; `StoredValue.valid` is a slot content that
  `JSON.parse` decodes to an `AnalysisState`, `StoredValue.malformed` is any
  slot content on which `JSON.parse` (or the cast) throws.
* Every user-visible surfacing operation — each assignment to
  `analyzeMessage` / `analyzeError` and each `toast.*` call — is logged as an
  `Event`, in source order.  Deferred `setTimeout` callbacks that merely clear
  messages 3–5 s later are not modelled (they touch no persisted state).
* `pollingInterval !== null` is the Boolean `pollingActive`; `clearInterval`
  sets it to false.  The per-session local `pollCount` of
  `startAnalysisPolling` is the field `pollCount`, reset to 0 on start.
* One execution of the interval callback is split into `pollTickIssue`
  (the synchronous `pollCount++` before `await productService.getStats()`) and
  `pollTickResume` (the continuation that runs when the response arrives);
  `pollTick` is their composition, i.e. one undisturbed tick.  The outcome of
  the awaited `getStats` call is the tick's `FetchResult` input; the outcome of
  the `loadStats()` reload inside `stopAnalysisPolling` is the `reload` input.
-/

/-- TTL of the persisted descriptor: `10 * 60 * 1000` ms, the expiry applied in
`loadAnalysisState` (DashboardView.vue line 406). -/
def ttlMillis : Int := 10 * 60 * 1000

/-- Attempt budget: `const maxPolls = 20` in `startAnalysisPolling` (line 555). -/
def maxPolls : Int := 20

/-- The persisted descriptor: `interface AnalysisState` (lines 379–384). -/
structure AnalysisState where
  inProgress : Bool
  initialCount : Int
  target : Int
  startedAt : Int
deriving Repr, DecidableEq

/-- Contents of the `localStorage` slot: either a serialized descriptor that
parses back, or a string `JSON.parse` rejects. -/
inductive StoredValue where
  | valid (st : AnalysisState)
  | malformed (raw : String)
deriving Repr, DecidableEq

/-- Toast severities of the notification sink (`ToastType` in the toast store:
info, success, warning, error). -/
inductive Sev where
  | info
  | success
  | warning
  | error
deriving Repr, DecidableEq

/-- User-visible surfacing operations of the tracker, one constructor per
assignment/call site in DashboardView.vue:
* `msgStarting` — `analyzeMessage = 'Iniciando análisis... (esto tarda ~3-4 minutos)'` (line 625)
* `msgAnalyzing p t` — `analyzeMessage = "Analizando... (p/t completados)"` (lines 443, 567, 639)
* `msgCompleted p` — `analyzeMessage = "Análisis completado (p productos analizados)"` (lines 433, 597)
* `errOllama` — `analyzeError = 'Ollama no está listo. ...'` (line 611)
* `errSubmit` — `analyzeError = error.response?.data?.message || 'Error al analizar productos'` (line 645)
* `toastInfoStart` — `toast.info('Iniciando análisis masivo...')` (line 626)
* `toastSuccessCompleted p` — `toast.success("Análisis completado: p productos")` (line 598)
* `toastErrorSubmit` — `toast.error('Error al analizar productos')` (line 646) -/
inductive Event where
  | msgStarting
  | msgAnalyzing (p t : Int)
  | msgCompleted (p : Int)
  | errOllama
  | errSubmit
  | toastInfoStart
  | toastSuccessCompleted (p : Int)
  | toastErrorSubmit
deriving Repr, DecidableEq

/-- Severity of the toast an event sends to the notification sink; `none` for
plain message-field assignments, which do not reach the sink. -/
def Event.severity : Event → Option Sev
  | .toastInfoStart => some .info
  | .toastSuccessCompleted _ => some .success
  | .toastErrorSubmit => some .error
  | _ => none

/-- Whether the event is a notification-sink (toast) event. -/
def isToastEvent (e : Event) : Bool := e.severity.isSome

/-- The component state of DashboardView relevant to the tracker. -/
structure DashState where
  /-- the `isAnalyzing` ref (line 365). -/
  isAnalyzing : Bool
  /-- the `analyzeProgress` ref (line 371). -/
  analyzeProgress : Int
  /-- the `analyzeTarget` ref (line 372, value 5). -/
  analyzeTarget : Int
  /-- the `initialAnalyzedCount` ref (line 373). -/
  initialAnalyzedCount : Int
  /-- whether `pollingInterval !== null` (line 374). -/
  pollingActive : Bool
  /-- the local `pollCount` of the current `startAnalysisPolling` closure. -/
  pollCount : Int
  /-- the `localStorage` slot under `ANALYSIS_STATE_KEY`. -/
  slot : Option StoredValue
  /-- the cached stats counter `globalStats.value?.analyzed_products`;
  `none` when `globalStats` is null (`?? 0` reads it as 0). -/
  globalStats : Option Int
deriving Repr, DecidableEq

/-- Source `saveAnalysisState` (lines 390–396): writes the slot on `some`,
removes it on `none`. -/
def saveAnalysisState (s : DashState) : Option AnalysisState → DashState
  | some st => { s with slot := some (.valid st) }
  | none => { s with slot := none }

/-- Source `loadAnalysisState` (lines 399–415): returns the parsed descriptor; on a
missing slot returns null; on a parse failure or on
`Date.now() - state.startedAt > 10 * 60 * 1000` erases the slot and returns
null.  Returns the read result together with the new component state (the
slot is the only part it can change). -/
def loadAnalysisState (now : Int) (s : DashState) :
    Option AnalysisState × DashState :=
  match s.slot with
  | none => (none, s)
  | some (.malformed _) => (none, { s with slot := none })
  | some (.valid st) =>
    if now - st.startedAt > ttlMillis then (none, { s with slot := none })
    else (some st, s)

/-- Source `startAnalysisPolling` (lines 554–577) as far as session setup goes:
a fresh local `pollCount = 0` and a live interval handle.  The interval
callback itself is `pollTick` below. -/
def startAnalysisPolling (s : DashState) : DashState :=
  { s with pollCount := 0, pollingActive := true }

/-- Outcome of one awaited `productService.getStats()` call. -/
inductive FetchResult where
  | ok (count : Int)
  | err
deriving Repr, DecidableEq

/-- Inputs consumed by one tick: the stats response for the tick itself, and
(used only if this tick terminates the session) the outcome of the
`loadStats()` reload inside `stopAnalysisPolling`. -/
structure TickInput where
  fetch : FetchResult
  reload : Option Int
deriving Repr, DecidableEq

/-- Source `loadStats` (lines 470–476): on success updates the cached stats, on
failure logs and leaves them unchanged. -/
def loadStats (s : DashState) (r : Option Int) : DashState :=
  match r with
  | some c => { s with globalStats := some c }
  | none => s

/-- Source `stopAnalysisPolling` (lines 580–605): clears the interval, erases the
persisted descriptor (`saveAnalysisState(null)`), reloads stats, then flips
`isAnalyzing` off and surfaces completion: the completed message and the
`toast.success` both carry the current `analyzeProgress`.  (The 5 s deferred
reset of message and progress is not modelled.) -/
def stopAnalysisPolling (s : DashState) (reload : Option Int) :
    DashState × List Event :=
  let s := { s with pollingActive := false }
  let s := saveAnalysisState s none
  let s := loadStats s reload
  let p := s.analyzeProgress
  ({ s with isAnalyzing := false },
   [Event.msgCompleted p, Event.toastSuccessCompleted p])

/-- The synchronous prefix of the interval callback (line 559): `pollCount++`
runs before the `await`, hence before cancellation can intervene. -/
def pollTickIssue (s : DashState) : DashState :=
  { s with pollCount := s.pollCount + 1 }

/-- The continuation of the interval callback after `await getStats()`
(lines 561–575): on a response, set
`analyzeProgress = currentAnalyzed - initialAnalyzedCount`, surface the
progress message, and call `stopAnalysisPolling` when
`analyzeProgress >= analyzeTarget || pollCount >= maxPolls`; on a rejected
promise, only log (state unchanged).  Note: nothing here consults
`pollingActive` — the source captures no per-query active flag. -/
def pollTickResume (s : DashState) (i : TickInput) : DashState × List Event :=
  match i.fetch with
  | .err => (s, [])
  | .ok c =>
    let p := c - s.initialAnalyzedCount
    let s := { s with analyzeProgress := p }
    if p ≥ s.analyzeTarget ∨ s.pollCount ≥ maxPolls then
      let r := stopAnalysisPolling s i.reload
      (r.1, Event.msgAnalyzing p s.analyzeTarget :: r.2)
    else
      (s, [Event.msgAnalyzing p s.analyzeTarget])

/-- One undisturbed poll tick: counter increment followed by the continuation. -/
def pollTick (s : DashState) (i : TickInput) : DashState × List Event :=
  pollTickResume (pollTickIssue s) i

/-- A sequence of undisturbed ticks, accumulating emitted events in order. -/
def runTicks (s : DashState) : List TickInput → DashState × List Event
  | [] => (s, [])
  | i :: is =>
    let r := pollTick s i
    let r' := runTicks r.1 is
    (r'.1, r.2 ++ r'.2)

/-- Source `resumeAnalysisIfNeeded` (lines 418–445): load the descriptor (this can
erase a stale or malformed slot); bail out on null or `!inProgress`; otherwise
restore the refs, compute progress from the cached stats
(`globalStats.value?.analyzed_products ?? 0`), and either finish immediately
(completed message, `isAnalyzing = false`, erase slot, no polling) or surface
the progress message and start polling. -/
def resumeAnalysisIfNeeded (s : DashState) (now : Int) :
    DashState × List Event :=
  let r := loadAnalysisState now s
  match r.1 with
  | none => (r.2, [])
  | some st =>
    if !st.inProgress then (r.2, [])
    else
      let s := { r.2 with initialAnalyzedCount := st.initialCount,
                          analyzeTarget := st.target,
                          isAnalyzing := true }
      let currentAnalyzed := s.globalStats.getD 0
      let p := currentAnalyzed - s.initialAnalyzedCount
      let s := { s with analyzeProgress := p }
      if p ≥ s.analyzeTarget then
        (saveAnalysisState { s with isAnalyzing := false } none,
         [Event.msgCompleted p])
      else
        (startAnalysisPolling s, [Event.msgAnalyzing p s.analyzeTarget])

/-- Source `handleAnalyze` (lines 608–653).  `ollamaReady` is
`ollamaStatus.value?.ready`; `submitOk` is whether the awaited
`scraperService.analyzeProducts({limit: analyzeTarget})` call resolves.
Not-ready: surface the Ollama error and return.  Otherwise: set
`isAnalyzing`, clear error, zero progress, record the baseline from the
cached stats (`globalStats.value?.analyzed_products ?? 0`), surface the
starting message and info toast, persist
`{inProgress: true, initialCount, target, startedAt: now}`, then submit.  On
success surface the 0-progress message and start polling; on failure erase
the slot (`saveAnalysisState(null)`), flip `isAnalyzing` off and surface the
error once. -/
def handleAnalyze (s : DashState) (ollamaReady : Bool) (now : Int)
    (submitOk : Bool) : DashState × List Event :=
  if !ollamaReady then (s, [Event.errOllama])
  else
    let s := { s with isAnalyzing := true, analyzeProgress := 0 }
    let s := { s with initialAnalyzedCount := s.globalStats.getD 0 }
    let st : AnalysisState :=
      { inProgress := true, initialCount := s.initialAnalyzedCount,
        target := s.analyzeTarget, startedAt := now }
    let s := saveAnalysisState s (some st)
    if submitOk then
      (startAnalysisPolling s,
       [Event.msgStarting, Event.toastInfoStart,
        Event.msgAnalyzing 0 s.analyzeTarget])
    else
      ({ saveAnalysisState s none with isAnalyzing := false },
       [Event.msgStarting, Event.toastInfoStart,
        Event.errSubmit, Event.toastErrorSubmit])

/-- The `onUnmounted` hook (lines 656–661): clear the interval, null the
handle — and nothing else; in particular the `localStorage` slot is not
touched. -/
def onUnmounted (s : DashState) : DashState :=
  { s with pollingActive := false }

/-- Modelled from the spec: §4.1 requires `startBatchJob` to fetch a **fresh**
baseline count instead of reusing a cached value.  This variant is
`handleAnalyze` with the baseline taken from an extra `freshCount` argument
(the result of a count query issued during the call) rather than from the
cached `globalStats`; it exists only to be compared with `handleAnalyze`. -/
def handleAnalyzeSpecFresh (s : DashState) (freshCount : Int)
    (ollamaReady : Bool) (now : Int) (submitOk : Bool) :
    DashState × List Event :=
  if !ollamaReady then (s, [Event.errOllama])
  else
    let s := { s with isAnalyzing := true, analyzeProgress := 0 }
    let s := { s with initialAnalyzedCount := freshCount }
    let st : AnalysisState :=
      { inProgress := true, initialCount := s.initialAnalyzedCount,
        target := s.analyzeTarget, startedAt := now }
    let s := saveAnalysisState s (some st)
    if submitOk then
      (startAnalysisPolling s,
       [Event.msgStarting, Event.toastInfoStart,
        Event.msgAnalyzing 0 s.analyzeTarget])
    else
      ({ saveAnalysisState s none with isAnalyzing := false },
       [Event.msgStarting, Event.toastInfoStart,
        Event.errSubmit, Event.toastErrorSubmit])

/-- The progress values surfaced to the user by a list of events, in order
(the `p` of each `Analizando... (p/t)` message). -/
def progressTrace (evs : List Event) : List Int :=
  evs.filterMap fun e =>
    match e with
    | .msgAnalyzing p _ => some p
    | _ => none

/-- The counter values of the successful fetches of a tick-input list. -/
def fetchedCounts (is : List TickInput) : List Int :=
  is.filterMap fun i =>
    match i.fetch with
    | .ok c => some c
    | .err => none

/-- A tick input whose fetch succeeds with a count still short of
`baseline + target` (so a tick consuming it cannot complete the job). -/
def lowOk (init target : Int) (i : TickInput) : Bool :=
  match i.fetch with
  | .ok c => decide (c - init < target)
  | .err => false

/-! ### Concrete sample states used by counterexamples and witnesses -/

/-- A mid-session component state: baseline 10, target 5, polling live,
descriptor persisted, cached stats at the baseline. -/
def midSession : DashState :=
  { isAnalyzing := true, analyzeProgress := 0, analyzeTarget := 5,
    initialAnalyzedCount := 10, pollingActive := true, pollCount := 0,
    slot := some (.valid { inProgress := true, initialCount := 10, target := 5,
                           startedAt := 0 }),
    globalStats := some 10 }

/-- An idle component state whose slot still holds an earlier job's
descriptor (baseline 3, target 7, started at epoch 100). -/
def idleWithOldJob : DashState :=
  { isAnalyzing := false, analyzeProgress := 0, analyzeTarget := 5,
    initialAnalyzedCount := 0, pollingActive := false, pollCount := 0,
    slot := some (.valid { inProgress := true, initialCount := 3, target := 7,
                           startedAt := 100 }),
    globalStats := some 50 }

/-- Twenty successful ticks whose counter sits at the baseline (progress 0),
so the target of `midSession` is never reached. -/
def twentyLowTicks : List TickInput :=
  List.replicate 20 { fetch := .ok 10, reload := some 10 }

/-- Two successful ticks whose counter decreases from 12 to 11. -/
def decreasingTicks : List TickInput :=
  [{ fetch := .ok 12, reload := none }, { fetch := .ok 11, reload := none }]

/-- Two successful ticks whose counter rises from 10 to 12. -/
def risingTicks : List TickInput :=
  [{ fetch := .ok 10, reload := none }, { fetch := .ok 12, reload := none }]

/-- A cancelled session (interval cleared) with one query still in flight
(`pollCount = 1` was incremented at issue time) and the descriptor persisted. -/
def cancelledSession : DashState :=
  { isAnalyzing := true, analyzeProgress := 0, analyzeTarget := 5,
    initialAnalyzedCount := 10, pollingActive := false, pollCount := 1,
    slot := some (.valid { inProgress := true, initialCount := 10, target := 5,
                           startedAt := 0 }),
    globalStats := some 10 }

/-- An idle state whose cached stats counter reads 10 (stale: the server moved
on since the last `loadStats`). -/
def idleCachedTen : DashState :=
  { isAnalyzing := false, analyzeProgress := 0, analyzeTarget := 5,
    initialAnalyzedCount := 0, pollingActive := false, pollCount := 0,
    slot := none, globalStats := some 10 }

/-- An idle state with no slot content and no cached stats, used as the base of
record-update instantiations. -/
def idleBase : DashState :=
  { isAnalyzing := false, analyzeProgress := 0, analyzeTarget := 5,
    initialAnalyzedCount := 0, pollingActive := false, pollCount := 0,
    slot := none, globalStats := some 12 }

/-- A descriptor started at epoch 0 with baseline 4 and target 6. -/
def descAtZero : AnalysisState :=
  { inProgress := true, initialCount := 4, target := 6, startedAt := 0 }

/-! ### Helper lemmas about single ticks and tick sequences -/

/-- A successful tick that neither reaches the target nor exhausts the attempt
budget updates only `pollCount` and `analyzeProgress` and surfaces only the
progress message. -/
theorem pollTick_no_stop (s : DashState) (i : TickInput) (c : Int)
    (hf : i.fetch = .ok c)
    (hlt : c - s.initialAnalyzedCount < s.analyzeTarget)
    (hcnt : s.pollCount + 1 < maxPolls) :
    pollTick s i =
      ({ s with pollCount := s.pollCount + 1,
                analyzeProgress := c - s.initialAnalyzedCount },
       [Event.msgAnalyzing (c - s.initialAnalyzedCount) s.analyzeTarget]) := by
  obtain ⟨f, rl⟩ := i
  simp only at hf
  subst hf
  simp only [pollTick, pollTickIssue, pollTickResume]
  rw [if_neg]
  push_neg
  exact ⟨hlt, by simpa using hcnt⟩

/-- A successful tick that reaches the target or exhausts the attempt budget
stops the timer, erases the slot, ends the analysis and emits the progress
message, the completed message and the completion success toast. -/
theorem pollTick_stop (s : DashState) (i : TickInput) (c : Int)
    (hf : i.fetch = .ok c)
    (hcond : c - s.initialAnalyzedCount ≥ s.analyzeTarget ∨
      s.pollCount + 1 ≥ maxPolls) :
    (pollTick s i).1.pollingActive = false ∧
    (pollTick s i).1.slot = none ∧
    (pollTick s i).1.isAnalyzing = false ∧
    (pollTick s i).2 =
      [Event.msgAnalyzing (c - s.initialAnalyzedCount) s.analyzeTarget,
       Event.msgCompleted (c - s.initialAnalyzedCount),
       Event.toastSuccessCompleted (c - s.initialAnalyzedCount)] := by
  obtain ⟨f, rl⟩ := i
  simp only at hf
  subst hf
  simp only [pollTick, pollTickIssue, pollTickResume, stopAnalysisPolling,
    saveAnalysisState, loadStats]
  rw [if_pos (by simpa using hcond)]
  cases rl <;> simp

/-- Running a sequence of successful below-target ticks that stays strictly
inside the attempt budget changes only `pollCount` and `analyzeProgress`:
polling stays live, the slot is untouched and no toast reaches the sink. -/
theorem runTicks_no_stop : ∀ (is : List TickInput) (s : DashState),
    (∀ i ∈ is, lowOk s.initialAnalyzedCount s.analyzeTarget i = true) →
    s.pollCount + is.length < maxPolls →
    (runTicks s is).1.pollingActive = s.pollingActive ∧
    (runTicks s is).1.slot = s.slot ∧
    (runTicks s is).1.pollCount = s.pollCount + is.length ∧
    (runTicks s is).1.initialAnalyzedCount = s.initialAnalyzedCount ∧
    (runTicks s is).1.analyzeTarget = s.analyzeTarget ∧
    (runTicks s is).1.isAnalyzing = s.isAnalyzing ∧
    (runTicks s is).2.filter isToastEvent = []
  | [], s, _, _ => by simp [runTicks]
  | i :: is, s, hok, hcnt => by
    have hi := hok i (List.mem_cons_self i is)
    unfold lowOk at hi
    cases hf : i.fetch with
    | err => rw [hf] at hi; exact absurd hi (by simp)
    | ok c =>
      rw [hf] at hi
      have hlt : c - s.initialAnalyzedCount < s.analyzeTarget := by
        simpa using hi
      have hlen : (((i :: is).length : Nat) : Int) = (is.length : Int) + 1 := by
        push_cast [List.length_cons]
        ring
      rw [hlen] at hcnt
      have hnn : (0:Int) ≤ (is.length : Int) := Int.ofNat_nonneg _
      have hcnt1 : s.pollCount + 1 < maxPolls := by omega
      have hstep := pollTick_no_stop s i c hf hlt hcnt1
      have hrest := runTicks_no_stop is
        { s with pollCount := s.pollCount + 1,
                 analyzeProgress := c - s.initialAnalyzedCount }
        (fun j hj => hok j (List.mem_cons_of_mem i hj))
        (by dsimp only; omega)
      simp only [runTicks, hstep]
      refine ⟨hrest.1, hrest.2.1, ?_, hrest.2.2.2.1, hrest.2.2.2.2.1,
        hrest.2.2.2.2.2.1, ?_⟩
      · rw [hrest.2.2.1, hlen]; dsimp only; ring
      · rw [List.filter_append, hrest.2.2.2.2.2.2]
        rfl

/-- Running successful below-target ticks that exactly exhaust the attempt
budget terminates the session: on the last tick the timer stops, the slot is
erased, the analysis ends, and across the whole run exactly one toast reaches
the sink — the completion success toast. -/
theorem runTicks_stops_at_max : ∀ (is : List TickInput) (s : DashState),
    is ≠ [] →
    (∀ i ∈ is, lowOk s.initialAnalyzedCount s.analyzeTarget i = true) →
    s.pollCount + is.length = maxPolls →
    (runTicks s is).1.pollingActive = false ∧
    (runTicks s is).1.slot = none ∧
    (runTicks s is).1.isAnalyzing = false ∧
    ∃ p, (runTicks s is).2.filter isToastEvent = [Event.toastSuccessCompleted p]
  | [], _, hne, _, _ => absurd rfl hne
  | [i], s, _, hok, hcnt => by
    have hi := hok i (List.mem_cons_self i [])
    unfold lowOk at hi
    cases hf : i.fetch with
    | err => rw [hf] at hi; exact absurd hi (by simp)
    | ok c =>
      rw [hf] at hi
      have hcond : c - s.initialAnalyzedCount ≥ s.analyzeTarget ∨
          s.pollCount + 1 ≥ maxPolls := by
        right
        simp only [List.length_singleton, Nat.cast_one] at hcnt
        omega
      have hstep := pollTick_stop s i c hf hcond
      simp only [runTicks]
      refine ⟨hstep.1, hstep.2.1, hstep.2.2.1, c - s.initialAnalyzedCount, ?_⟩
      rw [List.append_nil, hstep.2.2.2]
      rfl
  | i :: j :: is, s, _, hok, hcnt => by
    have hi := hok i (List.mem_cons_self i (j :: is))
    unfold lowOk at hi
    cases hf : i.fetch with
    | err => rw [hf] at hi; exact absurd hi (by simp)
    | ok c =>
      rw [hf] at hi
      have hlt : c - s.initialAnalyzedCount < s.analyzeTarget := by
        simpa using hi
      have hlen : (((i :: j :: is).length : Nat) : Int)
          = ((j :: is).length : Int) + 1 := by
        push_cast [List.length_cons]
        ring
      rw [hlen] at hcnt
      have hnn : (1:Int) ≤ ((j :: is).length : Int) := by
        have := List.length_pos.2 (List.cons_ne_nil j is)
        omega
      have hcnt1 : s.pollCount + 1 < maxPolls := by omega
      have hstep := pollTick_no_stop s i c hf hlt hcnt1
      have hrest := runTicks_stops_at_max (j :: is)
        { s with pollCount := s.pollCount + 1,
                 analyzeProgress := c - s.initialAnalyzedCount }
        (List.cons_ne_nil j is)
        (fun k hk => hok k (List.mem_cons_of_mem i hk))
        (by dsimp only; omega)
      have hgoal : runTicks s (i :: j :: is) =
          ((runTicks (pollTick s i).1 (j :: is)).1,
           (pollTick s i).2 ++ (runTicks (pollTick s i).1 (j :: is)).2) := rfl
      rw [hgoal, hstep]
      dsimp only
      obtain ⟨p, hp⟩ := hrest.2.2.2
      refine ⟨hrest.1, hrest.2.1, hrest.2.2.1, p, ?_⟩
      rw [List.filter_append, hp]
      rfl

/-- A tick never changes the session baseline `initialAnalyzedCount`. -/
theorem pollTick_initial_inv (s : DashState) (i : TickInput) :
    (pollTick s i).1.initialAnalyzedCount = s.initialAnalyzedCount := by
  obtain ⟨f, rl⟩ := i
  cases f with
  | err => rfl
  | ok c =>
    simp only [pollTick, pollTickIssue, pollTickResume, stopAnalysisPolling,
      saveAnalysisState, loadStats]
    split
    · cases rl <;> rfl
    · rfl

/-- The progress values a tick surfaces: one raw difference for a successful
fetch, nothing for a failed one. -/
theorem pollTick_trace (s : DashState) (i : TickInput) :
    progressTrace (pollTick s i).2 =
      match i.fetch with
      | .ok c => [c - s.initialAnalyzedCount]
      | .err => [] := by
  obtain ⟨f, rl⟩ := i
  cases f with
  | err => rfl
  | ok c =>
    simp only [pollTick, pollTickIssue, pollTickResume, stopAnalysisPolling,
      saveAnalysisState, loadStats]
    split
    · cases rl <;> rfl
    · rfl

/-- The surfaced progress values of a run are exactly the fetched counts minus
the session baseline, in fetch order. -/
theorem progressTrace_runTicks : ∀ (is : List TickInput) (s : DashState),
    progressTrace (runTicks s is).2 =
      (fetchedCounts is).map (fun c => c - s.initialAnalyzedCount)
  | [], s => by simp [runTicks, progressTrace, fetchedCounts]
  | i :: is, s => by
    have hgoal : runTicks s (i :: is) =
        ((runTicks (pollTick s i).1 is).1,
         (pollTick s i).2 ++ (runTicks (pollTick s i).1 is).2) := rfl
    rw [hgoal]
    dsimp only
    have happ : progressTrace ((pollTick s i).2 ++ (runTicks (pollTick s i).1 is).2)
        = progressTrace (pollTick s i).2
          ++ progressTrace (runTicks (pollTick s i).1 is).2 := by
      simp [progressTrace]
    rw [happ, pollTick_trace, progressTrace_runTicks is (pollTick s i).1,
      pollTick_initial_inv]
    cases hf : i.fetch with
    | err => simp [fetchedCounts, hf]
    | ok c =>
      simp only [fetchedCounts, List.filterMap_cons, hf]
      rfl

/-! ### Claim C1 -/

/-- C1, as stated, is false: the tick computes the raw difference
`currentAnalyzed - initialAnalyzedCount` with no clamping.  With baseline 10
and target 5 (`midSession`), a fetched count of 5 yields progress `-5 < 0`,
and a fetched count of 100 yields progress `90 > 5 = targetCount`; the
negative value is even surfaced in the progress message. -/
theorem c1_clamp_counterexample :
    midSession.initialAnalyzedCount = 10 ∧ midSession.analyzeTarget = 5 ∧
    (pollTick midSession { fetch := .ok 5, reload := none }).1.analyzeProgress = -5 ∧
    (-5 : Int) < 0 ∧
    (pollTick midSession { fetch := .ok 5, reload := none }).2 =
      [Event.msgAnalyzing (-5) 5] ∧
    (pollTick midSession { fetch := .ok 100, reload := none }).1.analyzeProgress = 90 ∧
    (5 : Int) < 90 := by
  decide

/-- C1 (corrected): on every poll tick whose count query succeeds, the derived
progress equals the raw difference `currentCount - baselineCount`, with no
clamping to `[0, targetCount]` — it can be negative and can exceed the
target. -/
theorem c1_progress_raw_difference (s : DashState) (c : Int) (i : Option Int) :
    (pollTick s { fetch := .ok c, reload := i }).1.analyzeProgress
      = c - s.initialAnalyzedCount := by
  simp only [pollTick, pollTickIssue, pollTickResume, stopAnalysisPolling,
    saveAnalysisState, loadStats]
  split
  · cases i <;> rfl
  · rfl

/-! ### Claim C2 -/

/-- C2, as stated, is false: `handleAnalyze` persists the new descriptor
*before* submitting, and on submission failure erases the slot
(`saveAnalysisState(null)`), so the slot does not keep its prior content.
Here the slot held an earlier job's descriptor before the failed call and is
empty afterwards. -/
theorem c2_no_persistence_counterexample :
    idleWithOldJob.slot =
      some (.valid { inProgress := true, initialCount := 3, target := 7,
                     startedAt := 100 }) ∧
    (handleAnalyze idleWithOldJob true 1000 false).1.slot = none ∧
    (handleAnalyze idleWithOldJob true 1000 false).1.slot ≠ idleWithOldJob.slot := by
  decide

/-- C2 (corrected): if job submission fails, `handleAnalyze` surfaces the
error exactly once (one error toast), ends the analysis, and starts no poll
session with no automatic retry; but it does touch persistence: it first
writes the new descriptor and then erases the slot, so after the call the
slot is empty regardless of its prior content. -/
theorem c2_submission_failure_erases_slot (s : DashState) (now : Int) :
    (handleAnalyze s true now false).1.slot = none ∧
    (handleAnalyze s true now false).1.pollingActive = s.pollingActive ∧
    (handleAnalyze s true now false).1.isAnalyzing = false ∧
    (handleAnalyze s true now false).2 =
      [Event.msgStarting, Event.toastInfoStart, Event.errSubmit,
       Event.toastErrorSubmit] ∧
    ((handleAnalyze s true now false).2.filter isToastEvent).count
      Event.toastErrorSubmit = 1 :=
  ⟨rfl, rfl, rfl, rfl, rfl⟩

/-! ### Claim C3 -/

/-- C3, as stated, is false in its event clause: when the attempt budget is
exhausted the code runs the same `stopAnalysisPolling` as on completion, so
the one terminal sink event is the *success* toast announcing a completed
analysis — no warning-severity (timed out) notification is ever emitted.
Shown on a 20-tick run of `midSession` whose counter never moves. -/
theorem c3_timeout_event_counterexample :
    ((runTicks midSession twentyLowTicks).2.filter
      fun e => e.severity == some Sev.warning) = [] ∧
    (runTicks midSession twentyLowTicks).2.filter isToastEvent =
      [Event.toastSuccessCompleted 0] ∧
    (Event.toastSuccessCompleted 0).severity = some Sev.success ∧
    (runTicks midSession twentyLowTicks).1.slot = none ∧
    (runTicks midSession twentyLowTicks).1.analyzeProgress = 0 ∧
    (0 : Int) < 5 := by
  decide

/-- C3 (corrected): if every tick's count query succeeds and the counter never
reaches `baseline + target`, the session terminates exactly once, after
exactly `maxPolls = 20` ticks: during the first 19 ticks polling stays live,
the slot is untouched and no sink event is emitted; after the 20th tick the
timer is stopped, the persisted descriptor is erased so `load()` returns null
afterward, and exactly one terminal sink event is emitted — the completion
success toast, not a "timed out" event. -/
theorem c3_timeout_after_twenty_ticks (s : DashState) (is : List TickInput)
    (hA : s.pollingActive = true) (h0 : s.pollCount = 0)
    (hlen : is.length = 20)
    (hok : ∀ i ∈ is, lowOk s.initialAnalyzedCount s.analyzeTarget i = true) :
    (runTicks s (is.take 19)).1.pollingActive = true ∧
    (runTicks s (is.take 19)).1.slot = s.slot ∧
    (runTicks s (is.take 19)).2.filter isToastEvent = [] ∧
    (runTicks s is).1.pollingActive = false ∧
    (runTicks s is).1.slot = none ∧
    (∀ now, (loadAnalysisState now (runTicks s is).1).1 = none) ∧
    ∃ p, (runTicks s is).2.filter isToastEvent =
      [Event.toastSuccessCompleted p] := by
  have htake : (is.take 19).length = 19 := by rw [List.length_take, hlen]; decide
  have hpre := runTicks_no_stop (is.take 19) s
    (fun i hi => hok i (List.take_subset 19 is hi))
    (by rw [htake, h0]; decide)
  have hfin := runTicks_stops_at_max is s
    (by intro h; rw [h] at hlen; simp at hlen)
    hok
    (by rw [hlen, h0]; decide)
  refine ⟨by rw [hpre.1, hA], hpre.2.1, hpre.2.2.2.2.2.2, hfin.1, hfin.2.1,
    ?_, hfin.2.2.2⟩
  intro now
  simp [loadAnalysisState, hfin.2.1]

/-- Witness for `c3_timeout_after_twenty_ticks` at `midSession` with twenty
below-target ticks. -/
theorem c3_timeout_witness :
    midSession.pollingActive = true ∧ midSession.pollCount = 0 ∧
    twentyLowTicks.length = 20 ∧
    (runTicks midSession (twentyLowTicks.take 19)).1.slot = midSession.slot ∧
    (runTicks midSession twentyLowTicks).1.pollingActive = false ∧
    (runTicks midSession twentyLowTicks).1.slot = none :=
  ⟨rfl, rfl, rfl,
   (c3_timeout_after_twenty_ticks midSession twentyLowTicks rfl rfl rfl
     (by decide)).2.1,
   (c3_timeout_after_twenty_ticks midSession twentyLowTicks rfl rfl rfl
     (by decide)).2.2.2.1,
   (c3_timeout_after_twenty_ticks midSession twentyLowTicks rfl rfl rfl
     (by decide)).2.2.2.2.1⟩

/-! ### Claim C4 -/

/-- C4 (confirmed): for every stored descriptor older than the TTL,
`loadAnalysisState` erases the slot and returns null regardless of the
`inProgress` flag (the descriptor is universally quantified), and the resume
pass on such a state is a no-op that starts no polling; for every stored
descriptor within the TTL, `loadAnalysisState` returns it with the slot
unchanged. -/
theorem c4_load_ttl (s : DashState) (st : AnalysisState)
    (nowStale nowFresh : Int)
    (h1 : nowStale - st.startedAt > ttlMillis)
    (h2 : nowFresh - st.startedAt ≤ ttlMillis) :
    loadAnalysisState nowStale { s with slot := some (.valid st) } =
      (none, { s with slot := none }) ∧
    resumeAnalysisIfNeeded { s with slot := some (.valid st) } nowStale =
      ({ s with slot := none }, []) ∧
    loadAnalysisState nowFresh { s with slot := some (.valid st) } =
      (some st, { s with slot := some (.valid st) }) := by
  refine ⟨?_, ?_, ?_⟩
  · simp [loadAnalysisState, h1]
  · simp [resumeAnalysisIfNeeded, loadAnalysisState, h1]
  · simp [loadAnalysisState]
    omega

/-- Witness for `c4_load_ttl`: a descriptor started at epoch 0, read at
11 minutes (stale) and at 1 minute (fresh). -/
theorem c4_load_ttl_witness :
    loadAnalysisState 660000 { idleBase with slot := some (.valid descAtZero) } =
      (none, { idleBase with slot := none }) ∧
    resumeAnalysisIfNeeded { idleBase with slot := some (.valid descAtZero) }
      660000 = ({ idleBase with slot := none }, []) ∧
    loadAnalysisState 60000 { idleBase with slot := some (.valid descAtZero) } =
      (some descAtZero, { idleBase with slot := some (.valid descAtZero) }) :=
  c4_load_ttl idleBase descAtZero 660000 60000 (by decide) (by decide)

/-! ### Claim C5 -/

/-- C5 (confirmed): teardown (`onUnmounted`) of a running session clears the
timer handle and changes nothing else — in particular the persisted slot is
untouched — and a `load()` within the TTL after teardown still returns the
original descriptor unchanged. -/
theorem c5_teardown_preserves_descriptor (s : DashState) (st : AnalysisState)
    (now : Int) (h : now - st.startedAt ≤ ttlMillis) :
    onUnmounted { s with slot := some (.valid st) } =
      { s with slot := some (.valid st), pollingActive := false } ∧
    loadAnalysisState now (onUnmounted { s with slot := some (.valid st) }) =
      (some st, { s with slot := some (.valid st), pollingActive := false }) := by
  constructor
  · rfl
  · simp [onUnmounted, loadAnalysisState]
    omega

/-- Witness for `c5_teardown_preserves_descriptor`: tearing down `midSession`
one minute in leaves its descriptor loadable. -/
theorem c5_teardown_witness :
    onUnmounted { midSession with slot := some (.valid descAtZero) } =
      { midSession with slot := some (.valid descAtZero),
                        pollingActive := false } ∧
    loadAnalysisState 60000
        (onUnmounted { midSession with slot := some (.valid descAtZero) }) =
      (some descAtZero,
       { midSession with slot := some (.valid descAtZero),
                         pollingActive := false }) :=
  c5_teardown_preserves_descriptor midSession descAtZero 60000 (by decide)

/-! ### Claim C6 -/

/-- C6, as stated, is false: nothing clamps the recomputed progress against
its last-seen value.  With baseline 10, the fetched counter sequence
`[12, 11]` makes the surfaced progress sequence `[2, 1]`, which decreases. -/
theorem c6_monotonic_counterexample :
    fetchedCounts decreasingTicks = [12, 11] ∧
    progressTrace (runTicks midSession decreasingTicks).2 = [2, 1] ∧
    ¬ List.Chain' (fun a b => a ≤ b)
        (progressTrace (runTicks midSession decreasingTicks).2) := by
  refine ⟨rfl, rfl, ?_⟩
  intro h
  rw [show progressTrace (runTicks midSession decreasingTicks).2
      = [(2:Int), 1] from rfl] at h
  exact absurd (List.chain'_cons.1 h).1 (by omega)

/-- C6 (corrected): within one session the surfaced progress values are the
fetched counts minus the fixed baseline, so they are monotonically
non-decreasing exactly when the fetched counter sequence is; a decreasing
counter produces decreasing progress reports (no clamping against the
last-seen value exists). -/
theorem c6_progress_monotone_with_counts (s : DashState) (is : List TickInput)
    (h : List.Chain' (fun a b => a ≤ b) (fetchedCounts is)) :
    List.Chain' (fun a b => a ≤ b) (progressTrace (runTicks s is).2) := by
  rw [progressTrace_runTicks, List.chain'_map]
  exact h.imp fun a b hab => by omega

/-- Witness for `c6_progress_monotone_with_counts`: the rising counter
sequence `[10, 12]` yields a non-decreasing progress trace. -/
theorem c6_progress_monotone_witness :
    List.Chain' (fun a b => a ≤ b)
      (progressTrace (runTicks midSession risingTicks).2) :=
  c6_progress_monotone_with_counts midSession risingTicks
    (by rw [show fetchedCounts risingTicks = [(10:Int), 12] from rfl]
        exact List.chain'_pair.2 (by omega))

/-! ### Claim C7 -/

/-- C7, as stated, is false: no issued query captures a still-active flag, so
a late response arriving after cancellation is acted on in full.  Here the
session was cancelled (`pollingActive = false`, one query in flight) with its
descriptor persisted; the late response with count 15 updates progress from 0
to 5, emits three events, and erases the persisted descriptor. -/
theorem c7_late_response_counterexample :
    cancelledSession.pollingActive = false ∧
    cancelledSession.analyzeProgress = 0 ∧
    cancelledSession.slot ≠ none ∧
    (pollTickResume cancelledSession { fetch := .ok 15, reload := some 15 }).1.analyzeProgress = 5 ∧
    (pollTickResume cancelledSession { fetch := .ok 15, reload := some 15 }).1.slot = none ∧
    (pollTickResume cancelledSession { fetch := .ok 15, reload := some 15 }).2 =
      [Event.msgAnalyzing 5 5, Event.msgCompleted 5,
       Event.toastSuccessCompleted 5] := by
  decide

/-- C7 (corrected): a late count-query response after cancellation is acted
upon exactly as an in-session response would be: the poll continuation never
reads the still-active flag, so its resulting slot, progress and emitted
events are identical whatever the value of `pollingActive`; cancellation only
prevents future ticks from being scheduled. -/
theorem c7_late_response_ignores_flag (s : DashState) (i : TickInput)
    (b1 b2 : Bool) :
    (pollTickResume { s with pollingActive := b1 } i).1.slot =
      (pollTickResume { s with pollingActive := b2 } i).1.slot ∧
    (pollTickResume { s with pollingActive := b1 } i).1.analyzeProgress =
      (pollTickResume { s with pollingActive := b2 } i).1.analyzeProgress ∧
    (pollTickResume { s with pollingActive := b1 } i).2 =
      (pollTickResume { s with pollingActive := b2 } i).2 := by
  simp only [pollTickResume, stopAnalysisPolling, saveAnalysisState, loadStats]
  cases i.fetch <;> simp
  split
  · cases i.reload <;> simp
  · simp

/-! ### Claim C8 -/

/-- C8, as stated, is false: `handleAnalyze` records as baseline the cached
`globalStats` value, issuing no count query during the call (its embedding
takes no fetched count at all).  With the cache at 10 while a fresh query at
call time would return 15 (`handleAnalyzeSpecFresh`, the spec-modelled
variant), the persisted baseline is the stale 10, not 15. -/
theorem c8_fresh_baseline_counterexample :
    idleCachedTen.globalStats = some 10 ∧
    (handleAnalyze idleCachedTen true 777 true).1.slot =
      some (.valid { inProgress := true, initialCount := 10, target := 5,
                     startedAt := 777 }) ∧
    (handleAnalyzeSpecFresh idleCachedTen 15 true 777 true).1.slot =
      some (.valid { inProgress := true, initialCount := 15, target := 5,
                     startedAt := 777 }) ∧
    (handleAnalyze idleCachedTen true 777 true).1.slot ≠
      (handleAnalyzeSpecFresh idleCachedTen 15 true 777 true).1.slot := by
  decide

/-- C8 (corrected): every successful `handleAnalyze` call records as the
persisted `baselineCount` the previously cached stats value
(`globalStats.value?.analyzed_products ?? 0`), never a count fetched during
the call. -/
theorem c8_baseline_from_cached_stats (s : DashState) (now : Int) :
    (handleAnalyze s true now true).1.slot =
      some (.valid { inProgress := true, initialCount := s.globalStats.getD 0,
                     target := s.analyzeTarget, startedAt := now }) ∧
    (handleAnalyze s true now true).1.initialAnalyzedCount =
      s.globalStats.getD 0 :=
  ⟨rfl, rfl⟩

/-! ### Claim C9 -/

/-- C9 (confirmed): when the resume pass finds a within-TTL descriptor with
`inProgress = true` and the progress computed at resume time already reaches
the target, it emits exactly one event — the completed message — erases the
persisted descriptor, ends the analysis, and issues zero polling ticks: the
timer stays as it was and the tick counter is untouched. -/
theorem c9_resume_completed_immediately (s : DashState) (st : AnalysisState)
    (now : Int)
    (hslot : s.slot = some (.valid st))
    (httl : now - st.startedAt ≤ ttlMillis)
    (hip : st.inProgress = true)
    (hdone : s.globalStats.getD 0 - st.initialCount ≥ st.target) :
    (resumeAnalysisIfNeeded s now).1.slot = none ∧
    (resumeAnalysisIfNeeded s now).1.pollingActive = s.pollingActive ∧
    (resumeAnalysisIfNeeded s now).1.isAnalyzing = false ∧
    (resumeAnalysisIfNeeded s now).1.pollCount = s.pollCount ∧
    (resumeAnalysisIfNeeded s now).2 =
      [Event.msgCompleted (s.globalStats.getD 0 - st.initialCount)] := by
  simp only [resumeAnalysisIfNeeded, loadAnalysisState, hslot]
  rw [if_neg (by omega)]
  simp only [hip, Bool.not_true, Bool.false_eq_true, if_false]
  rw [if_pos (by simpa using hdone)]
  simp [saveAnalysisState]

/-- Witness for `c9_resume_completed_immediately`: resuming one minute in with
a cached count of 12 against a descriptor with baseline 4 and target 6
(progress 8 ≥ 6) completes immediately with one event and no polling. -/
theorem c9_resume_completed_witness :
    (resumeAnalysisIfNeeded { idleBase with slot := some (.valid descAtZero) }
      60000).1.slot = none ∧
    (resumeAnalysisIfNeeded { idleBase with slot := some (.valid descAtZero) }
      60000).1.pollingActive = false ∧
    (resumeAnalysisIfNeeded { idleBase with slot := some (.valid descAtZero) }
      60000).2 = [Event.msgCompleted 8] :=
  ⟨(c9_resume_completed_immediately _ descAtZero 60000 rfl (by decide) rfl
      (by decide)).1,
   (c9_resume_completed_immediately _ descAtZero 60000 rfl (by decide) rfl
      (by decide)).2.1,
   (c9_resume_completed_immediately _ descAtZero 60000 rfl (by decide) rfl
      (by decide)).2.2.2.2⟩

/-! ### Claim C10 -/

/-- C10 (confirmed): for every slot content `JSON.parse` rejects,
`loadAnalysisState` does not fail: it erases the slot and returns null, and
the subsequent resume pass is a no-op — no state change beyond the erased
slot, no events, no polling. -/
theorem c10_malformed_slot_recovery (raw : String) (s : DashState) (now : Int) :
    loadAnalysisState now { s with slot := some (.malformed raw) } =
      (none, { s with slot := none }) ∧
    resumeAnalysisIfNeeded { s with slot := some (.malformed raw) } now =
      ({ s with slot := none }, []) := by
  constructor <;> rfl
